import Mathlib

/-!
Verification development for the `sso-service` repository.

The definitions below are a shallow embedding of the authentication core:
`src/sso_service/security.py` (JWT issue/decode), `src/sso_service/storage.py`
(the Redis-backed TTL key-value store), `src/sso_service/services.py`
(`ClientAuthService`, `UserAuthService`), the OAuth provider callbacks in
`src/sso_service/providers/{vk,yandex}.py` with `BaseStore.pop` from
`src/sso_service/core/base.py`, and the logout route in
`src/sso_service/api/routers/auth.py`.

Modelling conventions:
* JSON-ish payload values are `Val`; a JWT payload is an insertion-ordered
  association list `Dict` with Python `dict` update semantics (`dset`).
* A signed JWT is a `Jwt` record carrying its payload and the signing key;
  `decode_token` checks the key, and — as PyJWT's `jwt.decode` does by
  default (`verify_exp` stays enabled; only `verify_aud` is disabled in
  `security.py`) — rejects tokens whose `exp` is not in the future.
* UUID generation (`uuid4`) is modelled by a counter threaded through the
  operations; a drawn UUID `n` appears as `Val.uuid n` in payloads and as
  `toString n` inside store keys.
* Redis is a `StoreState`: a partial map from full string keys to records plus
  a partial TTL map.  `RedisStore._build_key` is `build_key`.  The public
  `BaseStore.build_key` called by the services has no other implementation in
  `storage.py`, so it is modelled by `RedisStore._build_key` as well.
* Python dynamic-type errors are modelled explicitly: `pyAdd` is Python `+`
  on the number/timedelta values that reach it, and returns `none` (a
  `TypeError`) when the operands are a number and a `timedelta`.
* Clock: every service entry point receives the current unix time `now : Int`
  once; timestamps are integral seconds.
-/

namespace SSO

/-- JSON-ish values stored in token payloads and claim objects. -/
inductive Val where
  | str (s : String)
  | num (n : Int)
  | uuid (u : Nat)
  | bool (b : Bool)
  | list (xs : List String)
deriving DecidableEq, Repr

/-- A Python `dict[str, Any]` as an insertion-ordered association list. -/
abbrev Dict := List (String × Val)

/-- Python `d[k]` / `d.get(k)`: value at the first (unique) occurrence of `k`. -/
def dget (d : Dict) (k : String) : Option Val :=
  match d with
  | [] => none
  | (k', v) :: rest => if k' = k then some v else dget rest k

/-- Python `d[k] = v`: replace the value in place if the key is present,
append the pair otherwise. -/
def dset (d : Dict) (k : String) (v : Val) : Dict :=
  match d with
  | [] => [(k, v)]
  | (k', v') :: rest => if k' = k then (k, v) :: rest else (k', v') :: dset rest k v

@[simp] theorem dget_dset_self (d : Dict) (k : String) (v : Val) :
    dget (dset d k v) k = some v := by
  induction d with
  | nil => simp [dget, dset]
  | cons p rest ih =>
    obtain ⟨k', v'⟩ := p
    by_cases h : k' = k <;> simp [dget, dset, h, ih]

@[simp] theorem dget_dset_ne (d : Dict) (k k₀ : String) (v : Val) (h : k₀ ≠ k) :
    dget (dset d k₀ v) k = dget d k := by
  induction d with
  | nil => simp [dget, dset, h]
  | cons p rest ih =>
    obtain ⟨k', v'⟩ := p
    by_cases hk : k' = k₀
    · subst hk
      simp [dget, dset, h]
    · simp only [dset, if_neg hk, dget]
      by_cases hk' : k' = k <;> simp [hk', ih]

/-! ## `security.py` — JWT primitives -/

/-- Model of `settings.jwt.secret_key`, the process-wide signing key. -/
def serviceKey : String := "jwt-secret-key"

/-- A signed JWT: the encoded payload together with the key it was signed
with.  A token forged by a third party carries a different `key`. -/
structure Jwt where
  payload : Dict
  key : String
deriving DecidableEq, Repr

/-- Errors raised by the embedded code: the exception classes of
`core/exceptions.py` that the modelled paths can raise, plus Python-level
`TypeError` / `AttributeError` and the HTTP errors of the routers. -/
inductive Err where
  | invalidToken (msg : String)
  | unauthorized (msg : String)
  | invalidCredentials (msg : String)
  | notEnabled (msg : String)
  | permissionDenied (msg : String)
  | unsupportedGrantType (msg : String)
  | valueError (msg : String)
  | typeError
  | attributeError
  | badRequest
  | http (code : Nat) (msg : String)
deriving DecidableEq, Repr

/-- `issue_token(token_type, payload, expires_in)`.

`payload.update({"exp": ..., "iat": ..., "token_type": ..., "jti": str(uuid4())})`
then `jwt.encode(payload, key, ...)`.  The update mutates the caller's dict
in place; the mutated dict is therefore returned alongside the token, and the
fresh-UUID counter is advanced.  Returns `(token, mutated payload, counter')`. -/
def issue_token (tokenType : String) (payload : Dict) (expiresIn : Int)
    (now : Int) (ctr : Nat) : Jwt × Dict × Nat :=
  let p := dset (dset (dset (dset payload
      "exp" (.num (now + expiresIn)))
      "iat" (.num now))
      "token_type" (.str tokenType))
      "jti" (.uuid ctr)
  (⟨p, serviceKey⟩, p, ctr + 1)

/-- `decode_token(token)`: `jwt.decode(token, key, algorithms, options={"verify_aud": False})`.

PyJWT verifies the signature and — since `verify_exp` is left at its default
`True` — raises `ExpiredSignatureError` (a `PyJWTError`, mapped by the code to
`InvalidTokenError`) when `int(exp) <= now`.  A non-numeric `exp` raises
`DecodeError`, also a `PyJWTError`. -/
def decode_token (token : Jwt) (now : Int) : Except Err Dict :=
  if token.key ≠ serviceKey then .error (.invalidToken "Invalid token")
  else
    match dget token.payload "exp" with
    | some (.num e) =>
        if e ≤ now then .error (.invalidToken "Invalid token") else .ok token.payload
    | some _ => .error (.invalidToken "Invalid token")
    | none => .ok token.payload

/-- `hash_secret`: abstract model of `pwd_context.hash` (argon2). -/
def hash_secret (secret : String) : String := "argon2$" ++ secret

/-- `verify_secret(plain, hashed)`: abstract model of `pwd_context.verify`. -/
def verify_secret (plainSecret hashedSecret : String) : Bool :=
  hashedSecret = hash_secret plainSecret

/-! ## `storage.py` — `RedisStore` over a Redis state -/

/-- The observable Redis state backing a store: key → record, key → TTL. -/
structure StoreState (α : Type) where
  data : String → Option α
  ttl : String → Option Int

/-- An empty Redis. -/
def emptyStore {α : Type} : StoreState α := ⟨fun _ => none, fun _ => none⟩

/-- `RedisStore._build_key(string)` = `f"{self._prefix}:{string}"`. -/
def build_key (pfx key : String) : String := pfx ++ ":" ++ key

/-- `RedisStore.add(key, schema, ttl)`: builds the key, `SET`s the value
(which clears any previous TTL), then `EXPIRE`s it when `ttl` is truthy. -/
def storeAdd {α : Type} (pfx : String) (s : StoreState α) (key : String) (v : α)
    (ttl : Option Int) : StoreState α :=
  let k := build_key pfx key
  { data := fun k' => if k' = k then some v else s.data k',
    ttl := fun k' =>
      if k' = k then
        match ttl with
        | some t => if t ≠ 0 then some t else none
        | none => none
      else s.ttl k' }

/-- `RedisStore.get(key)`: builds the key and reads it. -/
def storeGet {α : Type} (pfx : String) (s : StoreState α) (key : String) : Option α :=
  s.data (build_key pfx key)

/-- `RedisStore.exists(key)`: builds the key and checks presence. -/
def storeExists {α : Type} (pfx : String) (s : StoreState α) (key : String) : Bool :=
  (s.data (build_key pfx key)).isSome

/-- `RedisStore.refresh_ttl(key, ttl)`:

```
key = self._build_key(key)
if not await self.exists(key): return None   # exists() builds the key AGAIN
if ttl: await self._redis.expire(key, ttl)
return await self.get(key)                   # get() builds the key AGAIN
```

The built key is passed back through `exists`/`get`, which prefix it a second
time. -/
def storeRefreshTTL {α : Type} (pfx : String) (s : StoreState α) (key : String)
    (ttl : Int) : Option α × StoreState α :=
  let k := build_key pfx key
  if ¬ storeExists pfx s k then (none, s)
  else
    let s' :=
      if ttl ≠ 0 then
        { s with ttl := fun k' => if k' = k then some ttl else s.ttl k' }
      else s
    (storeGet pfx s' k, s')

/-- `RedisStore.delete(key)`: builds the key, `DEL`s it and reports whether a
key was removed (`deleted_keys > 0`). -/
def storeDelete {α : Type} (pfx : String) (s : StoreState α) (key : String) :
    Bool × StoreState α :=
  let k := build_key pfx key
  ((s.data k).isSome,
   { data := fun k' => if k' = k then none else s.data k',
     ttl := fun k' => if k' = k then none else s.ttl k' })

/-- `BaseStore.pop(key)` (`core/base.py`): `get`, return absent if missing,
else `delete` and return the record. -/
def storePop {α : Type} (pfx : String) (s : StoreState α) (key : String) :
    Option α × StoreState α :=
  match storeGet pfx s key with
  | none => (none, s)
  | some v => (some v, (storeDelete pfx s key).2)

/-! ## `core/constants.py` (seconds) and `core/domain.py` -/

def USER_ACCESS_TOKEN_EXPIRE_IN : Int := 900
def USER_REFRESH_TOKEN_EXPIRE_IN : Int := 604800
def CLIENT_ACCESS_TOKEN_EXPIRE_IN : Int := 1800
def SESSION_EXPIRE_IN : Int := 604800
def SESSION_REFRESH_THRESHOLD : Int := 432000
def ISSUER : String := "https://davalka.ru"
def DEFAULT_ROLES : List String := ["user"]

/-- `core/enums.py` `UserStatus`. -/
inductive UserStatus where
  | registered | emailVerified | active | inactive | banned | deleted
deriving DecidableEq, Repr

/-- `.value` of the `UserStatus` enum members. -/
def UserStatus.value : UserStatus → String
  | .registered => "registered"
  | .emailVerified => "email_verified"
  | .active => "active"
  | .inactive => "inactive"
  | .banned => "banned"
  | .deleted => "deleted"

/-- `core/domain.py` `User` (the fields the authentication paths read).
`password` is the stored hash, absent for OAuth-registered users. -/
structure User where
  id : Nat
  email : String
  password : Option String
  status : UserStatus
deriving DecidableEq, Repr

/-- `User.to_payload(realm=..., roles=...)`. -/
def User.toPayload (u : User) (realm : String) (roles : List String) : Dict :=
  [("iss", .str ISSUER),
   ("sub", .uuid u.id),
   ("email", .str u.email),
   ("status", .str u.status.value),
   ("realm", .str realm),
   ("roles", .str (String.intercalate " " roles))]

/-- `core/domain.py` `Session` (TTL-relevant fields). -/
structure Session where
  session_id : Nat
  user_id : Nat
  expires_at : Int
deriving DecidableEq, Repr

/-- `core/domain.py` `Realm` (the fields `_can_switch_realm` reads). -/
structure Realm where
  slug : String
  enabled : Bool
deriving DecidableEq, Repr

/-- `core/domain.py` `Group` (only its realm-scoped role list matters here). -/
structure Group where
  roles : List String
deriving DecidableEq, Repr

/-- `core/domain.py` `TokenPair`. -/
structure TokenPair where
  access_token : Jwt
  refresh_token : Jwt
  session_id : Nat
  expires_at : Int
deriving DecidableEq, Repr

/-- `UserClaims` / `ClientClaims` as returned by introspection: the `active`
flag, the optional `cause`, and the decoded token payload the remaining
claim fields were populated from. -/
structure IntroClaims where
  active : Bool
  cause : Option String
  payload : Dict
deriving DecidableEq, Repr

/-- The repositories `UserAuthService` depends on
(`database/repository.py`), as read-only lookup functions. -/
structure Repos where
  getByEmail : String → Option User
  readUser : Nat → Option User
  userGroups : String → Nat → List Group
  realmBySlug : String → Option Realm

/-! ## `services.py` — `ClientAuthService` / `UserAuthService` -/

/-- `ClientAuthService._validate_scopes(requested, permitted, strict_mode)`. -/
def validate_scopes (requestedScopes clientScopes : List String)
    (strictMode : Bool) : Option (List String) :=
  let validScopes := requestedScopes.filter (fun s => s ∈ clientScopes)
  if strictMode && requestedScopes.any (fun s => ¬ s ∈ validScopes) then none
  else if validScopes = [] then none else some validScopes

/-- The `"exp" in payload and payload["exp"] < current_timestamp()` test used
by both introspection methods.  Comparing a non-numeric `exp` with a float
would raise `TypeError` in Python. -/
def expiredFlag (payload : Dict) (now : Int) : Except Err Bool :=
  match dget payload "exp" with
  | none => .ok false
  | some (.num e) => .ok (decide (e < now))
  | some _ => .error .typeError

/-- `ClientAuthService.introspect(token, realm=realm)`. -/
def clientIntrospect (token : Jwt) (realm : String) (now : Int) :
    Except Err IntroClaims :=
  if realm = "" then .error (.valueError "Realm is required")
  else
    match decode_token token now with
    | .error _ => .error (.unauthorized "Invalid token")
    | .ok payload =>
      if dget payload "realm" = none ∨ dget payload "realm" ≠ some (.str realm) then
        .error (.unauthorized "Invalid token in this realm")
      else
        match expiredFlag payload now with
        | .error e => .error e
        | .ok true => .ok ⟨false, some "Token expired", []⟩
        | .ok false => .ok ⟨true, none, payload⟩

/-- `f"{session_id}"` for the `session_id` kwarg (`None` prints as `"None"`). -/
def sidString : Option Nat → String
  | none => "None"
  | some sid => toString sid

/-- `UserAuthService.introspect(token, realm=realm, session_id=session_id)`.

The service pre-builds the key with `build_key` and passes it to
`session_store.exists`, which builds it a second time. -/
def userIntrospect (store : StoreState Session) (token : Jwt) (realm : String)
    (sessionId : Option Nat) (now : Int) : Except Err IntroClaims :=
  if realm = "" then .error (.valueError "Realm is required")
  else
    let key := build_key "session" (sidString sessionId)
    if ¬ storeExists "session" store key ∨ sessionId = none then
      .error (.unauthorized "Session not found")
    else
      match decode_token token now with
      | .error _ => .error (.unauthorized "Invalid token")
      | .ok payload =>
        if dget payload "realm" = none ∨ dget payload "realm" ≠ some (.str realm) then
          .ok ⟨false, some "Invalid token in this realm", []⟩
        else
          match expiredFlag payload now with
          | .error e => .error e
          | .ok true => .ok ⟨false, some "Token expired", []⟩
          | .ok false => .ok ⟨true, none, payload⟩

/-- `UserAuthService._give_roles(realm, user_id)`: union of the roles of the
user's groups in the realm, deduplicated; `DEFAULT_ROLES` when the user is in
no group. -/
def give_roles (repos : Repos) (realm : String) (userId : Nat) : List String :=
  let groups := repos.userGroups realm userId
  if groups = [] then DEFAULT_ROLES
  else (groups.flatMap (fun g => g.roles)).dedup

/-- `UserAuthService._generate_token_pair(payload, session_id)`.

Both `issue_token` calls receive the same payload dict; the first call's
in-place update is visible to the second. -/
def generate_token_pair (payload : Dict) (sessionId : Nat) (now : Int)
    (ctr : Nat) : TokenPair × Nat :=
  let r₁ := issue_token "access" payload USER_ACCESS_TOKEN_EXPIRE_IN now ctr
  let r₂ := issue_token "refresh" r₁.2.1 USER_REFRESH_TOKEN_EXPIRE_IN now r₁.2.2
  (⟨r₁.1, r₂.1, sessionId, now + USER_ACCESS_TOKEN_EXPIRE_IN⟩, r₂.2.2)

/-- `UserAuthService.authenticate(realm, email, password)`.

The session key is pre-built with `build_key` and handed to
`session_store.add`, which builds it again.  Returns the token pair, the new
Redis state, and the advanced UUID counter. -/
def authenticate (repos : Repos) (store : StoreState Session)
    (realm email password : String) (now : Int) (ctr : Nat) :
    Except Err (TokenPair × StoreState Session × Nat) :=
  match repos.getByEmail email with
  | none => .error (.invalidCredentials "Invalid email")
  | some user =>
    if user.status = .banned then .error (.notEnabled "User is banned")
    else
      match user.password with
      | none => .error .attributeError
      | some hashed =>
        if ¬ verify_secret password hashed then
          .error (.invalidCredentials "Invalid password")
        else
          let roles := give_roles repos realm user.id
          let payload := user.toPayload realm roles
          let session : Session := ⟨ctr, user.id, now + SESSION_EXPIRE_IN⟩
          let key := build_key "session" (toString session.session_id)
          let store' := storeAdd "session" store key session
              (some (session.expires_at - now))
          let r := generate_token_pair payload session.session_id now (ctr + 1)
          .ok (r.1, store', r.2)

/-- `UserAuthService._can_switch_realm(target_realm)`. -/
def can_switch_realm (repos : Repos) (targetRealm : String) : Bool :=
  match repos.realmBySlug targetRealm with
  | none => false
  | some realm => realm.enabled

/-- Python `+` on the values reaching `session_delay + SESSION_REFRESH_IN`:
a number (float/int) or a `timedelta`.  `number + timedelta` has no overload
and raises `TypeError` (`none`). -/
inductive PyVal where
  | num (x : Int)
  | delta (secs : Int)
deriving DecidableEq, Repr

def pyAdd : PyVal → PyVal → Option PyVal
  | .num a, .num b => some (.num (a + b))
  | .delta a, .delta b => some (.delta (a + b))
  | .num _, .delta _ => none
  | .delta _, .num _ => none

/-- `SESSION_REFRESH_IN = timedelta(days=2)` — kept as the `timedelta` it is. -/
def SESSION_REFRESH_IN_DELTA : PyVal := .delta 172800

def pyValSecs : PyVal → Int
  | .num x => x
  | .delta s => s

/-- `UserClaims.model_dump(exclude_none=True)` after `claims.roles = roles`,
on an `active=true` claims object: `active`, the known claim fields that were
present in the decoded payload, and the overwritten `roles` list. -/
def claims_dump (claims : IntroClaims) (roles : List String) : Dict :=
  ("active", .bool claims.active) ::
    ((["token_type", "iss", "sub", "aud", "exp", "iat", "jti", "status", "realm"].filterMap
      (fun k => (dget claims.payload k).map (fun v => (k, v)))) ++
     [("roles", .list roles)])

/-- `UserAuthService.refresh(token, realm, session_id)`.

The session key is pre-built and passed to `session_store.get` /
`session_store.refresh_ttl`, which build it again.  `UUID(claims.sub)` is the
`sub` payload entry, required to be a UUID.  `session_delay` is the float
`session.expires_at - current_timestamp()`; when it is below the threshold the
code evaluates `session_delay + SESSION_REFRESH_IN` — a Python `+` between a
number and a `timedelta`. -/
def refresh (repos : Repos) (store : StoreState Session) (token : Jwt)
    (realm : String) (sessionId : Nat) (now : Int) (ctr : Nat) :
    Except Err (TokenPair × StoreState Session × Nat) :=
  let key := build_key "session" (toString sessionId)
  match storeGet "session" store key with
  | none => .error (.unauthorized "Session not found or expired")
  | some session =>
    match userIntrospect store token realm (some sessionId) now with
    | .error e => .error e
    | .ok claims =>
      if ¬ claims.active then .error (.unauthorized (claims.cause.getD "None"))
      else
        match dget claims.payload "sub" with
        | some (.uuid userId) =>
          let roles := give_roles repos realm userId
          let sessionDelay := session.expires_at - now
          if sessionDelay < SESSION_REFRESH_THRESHOLD then
            match pyAdd (.num sessionDelay) SESSION_REFRESH_IN_DELTA with
            | none => .error .typeError
            | some ttlVal =>
              let r' := storeRefreshTTL "session" store key (pyValSecs ttlVal)
              let r := generate_token_pair (claims_dump claims roles) sessionId now ctr
              .ok (r.1, r'.2, r.2)
          else
            let r := generate_token_pair (claims_dump claims roles) sessionId now ctr
            .ok (r.1, store, r.2)
        | _ => .error (.valueError "badly formed hexadecimal UUID string")

/-- `UserAuthService.switch_realm(current_realm, target_realm, refresh_token,
session_id)`.

Unlike `authenticate`/`refresh`, the raw `session_id` is passed to
`session_store.get`, which prefixes it once. -/
def switch_realm (repos : Repos) (store : StoreState Session)
    (currentRealm targetRealm : String) (refreshToken : Jwt) (sessionId : Nat)
    (now : Int) (ctr : Nat) : Except Err (TokenPair × Nat) :=
  if currentRealm = targetRealm then .error (.valueError "Realms must be different!")
  else
    match storeGet "session" store (toString sessionId) with
    | none => .error (.unauthorized "Invalid session or session expired")
    | some _session =>
      match userIntrospect store refreshToken currentRealm (some sessionId) now with
      | .error e => .error e
      | .ok claims =>
        if ¬ claims.active then .error (.unauthorized (claims.cause.getD "None"))
        else if ¬ can_switch_realm repos targetRealm then
          .error (.permissionDenied "Realm switching not allowed")
        else
          match dget claims.payload "sub" with
          | some (.uuid userId) =>
            let roles := give_roles repos targetRealm userId
            match repos.readUser userId with
            | none => .error .attributeError
            | some user =>
              if user.status = .banned then .error (.permissionDenied "User is banned")
              else .ok (generate_token_pair (user.toPayload targetRealm roles) sessionId now ctr)
          | _ => .error (.valueError "badly formed hexadecimal UUID string")

/-- `logout_user` (`api/routers/auth.py`): deletes the session under the raw
cookie `session_id` (the store prefixes it once) and answers 401 when the
delete removed nothing. -/
def logout_user (store : StoreState Session) (cookieSessionId : Option Nat) :
    Except Err (StoreState Session) :=
  match cookieSessionId with
  | none => .error (.http 401 "Session id is missing in cookies")
  | some sid =>
    let r := storeDelete "session" store (toString sid)
    if ¬ r.1 then .error (.http 401 "Session expired, maybe already logout")
    else .ok r.2

/-! ## `providers/vk.py`, `providers/yandex.py` — PKCE callback exchange -/

/-- `core/domain.py` `Codes`: PKCE state, verifier, challenge. -/
structure Codes where
  state : Nat
  code_verifier : String
  code_challenge : String
deriving DecidableEq, Repr

/-- Abstract `create_s256_code_challenge`. -/
def s256 (verifier : String) : String := "S256$" ++ verifier

/-- `Codes.generate()`: fresh `state` (a UUID) and random verifier, both
drawn from the UUID/randomness counter. -/
def Codes.generate (ctr : Nat) : Codes × Nat :=
  let verifier := "verifier-" ++ toString ctr
  (⟨ctr, verifier, s256 verifier⟩, ctr + 1)

/-- `VKProvider.generate_url()` / `YandexProvider.generate_url()`: generate
codes, store them keyed by `state` with TTL 200, return the redirect URL.
Both providers share this store interaction. -/
def generate_url (codesStore : StoreState Codes) (ctr : Nat) :
    String × StoreState Codes × Nat :=
  let r := Codes.generate ctr
  let store' := storeAdd "codes" codesStore (toString r.1.state) r.1 (some 200)
  ("authorize?state=" ++ toString r.1.state ++ "&code_challenge=" ++ r.1.code_challenge,
   store', r.2)

/-- `VKCallback` (`core/domain.py`). -/
structure VKCallback where
  code : String
  state : Nat
  device_id : String
deriving DecidableEq, Repr

/-- `YandexCallback` (`core/domain.py`). -/
structure YandexCallback where
  code : String
  state : Nat
deriving DecidableEq, Repr

def vk_app_id : String := "vk-app-id"
def vk_redirect_uri : String := "vk-redirect-uri"
def yandex_app_id : String := "yandex-app-id"
def yandex_app_secret : String := "yandex-app-secret"

/-- `VKCallback.to_dict(code_verifier)`. -/
def VKCallback.toDict (cb : VKCallback) (codeVerifier : String) : Dict :=
  [("grant_type", .str "authorization_code"),
   ("code", .str cb.code),
   ("code_verifier", .str codeVerifier),
   ("client_id", .str vk_app_id),
   ("device_id", .str cb.device_id),
   ("redirect_uri", .str vk_redirect_uri),
   ("state", .str (toString cb.state))]

/-- `YandexCallback.to_dict(code_verifier)`. -/
def YandexCallback.toDict (cb : YandexCallback) (codeVerifier : String) : Dict :=
  [("grant_type", .str "authorization_code"),
   ("code", .str cb.code),
   ("client_id", .str yandex_app_id),
   ("client_secret", .str yandex_app_secret),
   ("code_verifier", .str codeVerifier)]

/-- `VKProvider._handle_callback(callback)`: `pop` the codes by `state`;
absent → `BadRequestHTTPError`; otherwise proceed to the provider token
exchange with `callback.to_dict(code_verifier=codes.code_verifier)`.  The
`ok` result is the parameter dict of that outbound POST, paired with the
codes-store state after the `pop`. -/
def vk_handle_callback (codesStore : StoreState Codes) (cb : VKCallback) :
    Except Err (Dict × StoreState Codes) :=
  match storePop "codes" codesStore (toString cb.state) with
  | (none, _) => .error .badRequest
  | (some codes, store') => .ok (cb.toDict codes.code_verifier, store')

/-- `YandexProvider._handle_callback(callback)`: identical `pop` logic. -/
def yandex_handle_callback (codesStore : StoreState Codes) (cb : YandexCallback) :
    Except Err (Dict × StoreState Codes) :=
  match storePop "codes" codesStore (toString cb.state) with
  | (none, _) => .error .badRequest
  | (some codes, store') => .ok (cb.toDict codes.code_verifier, store')

/-- `Except.isOk` as a plain Boolean observer. -/
def exOk {ε α : Type} : Except ε α → Bool
  | .ok _ => true
  | .error _ => false

/-! ## Concrete fixtures -/

/-- An active local-password user. -/
def activeUser : User := ⟨3, "u@x.y", some (hash_secret "hunter2"), .active⟩

/-- A user whose status is `deleted`, with a valid local password. -/
def deletedUser : User := ⟨4, "d@x.y", some (hash_secret "hunter2"), .deleted⟩

/-- A user whose status is `banned`. -/
def bannedUser : User := ⟨5, "b@x.y", some (hash_secret "hunter2"), .banned⟩

/-- Repositories holding the three users, no groups, and two enabled realms. -/
def demoRepos : Repos where
  getByEmail e :=
    if e = "u@x.y" then some activeUser
    else if e = "d@x.y" then some deletedUser
    else if e = "b@x.y" then some bannedUser
    else none
  readUser i :=
    if i = 3 then some activeUser
    else if i = 4 then some deletedUser
    else if i = 5 then some bannedUser
    else none
  userGroups _ _ := []
  realmBySlug s :=
    if s = "acme" then some ⟨"acme", true⟩
    else if s = "beta" then some ⟨"beta", true⟩
    else none

/-- Redis holding the session with id 7 exactly where `authenticate` puts it:
under the doubly prefixed key. -/
def sessionStore7 : StoreState Session :=
  ⟨fun k => if k = "session:session:7" then some ⟨7, 3, 999999⟩ else none,
   fun _ => none⟩

/-- A token signed by the service for realm `acme` whose `exp` (500) is in
the past at `now = 1000`, and which passes every other check. -/
def expiredToken : Jwt :=
  ⟨[("iss", .str ISSUER), ("sub", .uuid 3), ("email", .str "u@x.y"),
    ("status", .str "active"), ("realm", .str "acme"), ("roles", .str "user"),
    ("exp", .num 500), ("iat", .num 100), ("token_type", .str "access"),
    ("jti", .uuid 9)], serviceKey⟩

/-- The same token with `exp = 2000`, unexpired at `now = 1000`. -/
def freshToken : Jwt :=
  ⟨[("iss", .str ISSUER), ("sub", .uuid 3), ("email", .str "u@x.y"),
    ("status", .str "active"), ("realm", .str "acme"), ("roles", .str "user"),
    ("exp", .num 2000), ("iat", .num 100), ("token_type", .str "refresh"),
    ("jti", .uuid 9)], serviceKey⟩

/-! ## Claim theorems -/

/-- **C1** (code_bug evidence).  A token signed by the service whose `exp`
lies in the past but which passes every other check (valid signature,
matching realm, existing session for the user path) makes both
`ClientAuthService.introspect` and `UserAuthService.introspect` raise
`UnauthorizedError("Invalid token")` instead of returning
`active=false, cause="Token expired"`: `jwt.decode` verifies `exp` by
default, so `decode_token` raises before the dedicated expiry branch can
run.  The last two conjuncts show the same token with a future `exp` is
accepted as `active=true`, i.e. expiry is the only failing check. -/
theorem introspect_expired_token_raises :
    clientIntrospect expiredToken "acme" 1000
      = .error (.unauthorized "Invalid token")
    ∧ userIntrospect sessionStore7 expiredToken "acme" (some 7) 1000
      = .error (.unauthorized "Invalid token")
    ∧ clientIntrospect freshToken "acme" 1000 = .ok ⟨true, none, freshToken.payload⟩
    ∧ userIntrospect sessionStore7 freshToken "acme" (some 7) 1000
      = .ok ⟨true, none, freshToken.payload⟩ := by
  exact ⟨rfl, rfl, rfl, rfl⟩

/-- Redis as `RedisStore.add("k1", ...)` leaves it: the record under the
once-prefixed key `session:k1`, with a live TTL of 100. -/
def storeK1 : StoreState Session :=
  ⟨fun k => if k = "session:k1" then some ⟨1, 2, 5000⟩ else none,
   fun k => if k = "session:k1" then some 100 else none⟩

/-- **C4** (code_bug evidence).  The key `"k1"` is present in the store
(`exists` is true), yet `refresh_ttl("k1", 300)` returns `None` and leaves
both the value and the old TTL untouched: `refresh_ttl` builds the key and
then calls `exists`/`get`, which prefix it a second time, so it looks up
`session:session:k1` instead of `session:k1`.  The last conjunct checks the
absent-key half of the claim, which does hold. -/
theorem refresh_ttl_present_key_returns_none :
    storeExists "session" storeK1 "k1" = true
    ∧ (storeRefreshTTL "session" storeK1 "k1" 300).1 = none
    ∧ (storeRefreshTTL "session" storeK1 "k1" 300).2.ttl "session:k1" = some 100
    ∧ (storeRefreshTTL "session" storeK1 "k1" 300).2.data "session:k1" = some ⟨1, 2, 5000⟩
    ∧ (storeRefreshTTL "session" storeK1 "missing" 300).1 = none := by
  decide

/-- Redis holding session 9 (user 3) under the doubly prefixed key, expiring
at 346600: at `now = 1000` the remaining lifetime is 345600 s (4 days),
below `SESSION_REFRESH_THRESHOLD` (5 days). -/
def sessionStoreNearExpiry : StoreState Session :=
  ⟨fun k => if k = "session:session:9" then some ⟨9, 3, 346600⟩ else none,
   fun _ => none⟩

/-- The same session with 500000 s remaining, above the threshold. -/
def sessionStoreFarExpiry : StoreState Session :=
  ⟨fun k => if k = "session:session:9" then some ⟨9, 3, 501000⟩ else none,
   fun _ => none⟩

/-- **C5** (code_bug evidence).  With a live session whose remaining lifetime
is below `SESSION_REFRESH_THRESHOLD` and an active refresh token, `refresh`
raises `TypeError` instead of calling `refresh_ttl` and returning a pair:
`session_delay` is a float and `session_delay + SESSION_REFRESH_IN` adds a
number to a `timedelta`, which Python rejects.  The second conjunct shows the
same call succeeds when the remaining lifetime is above the threshold, i.e.
the crash is specific to the branch the claim describes. -/
theorem refresh_below_threshold_type_error :
    refresh demoRepos sessionStoreNearExpiry freshToken "acme" 9 1000 0
      = .error .typeError
    ∧ exOk (refresh demoRepos sessionStoreFarExpiry freshToken "acme" 9 1000 0)
      = true := by
  exact ⟨rfl, rfl⟩

/-- **C2** (code_bug evidence).  An enabled user logs in (`authenticate`
succeeds — the `map` applies), realm `beta` exists, is enabled and differs
from `acme`, the refresh token and session are the ones just issued; yet
`switch_realm` raises `UnauthorizedError("Invalid session or session
expired")` instead of returning a pair for `beta`: `authenticate` stores the
session under the doubly prefixed key `session:session:<sid>` (it pre-builds
the key and `add` builds it again), while `switch_realm` hands the raw
`session_id` to `session_store.get`, which looks up `session:<sid>`. -/
theorem switch_realm_after_login_unauthorized :
    (authenticate demoRepos emptyStore "acme" "u@x.y" "hunter2" 1000 0).toOption.map
      (fun r => switch_realm demoRepos r.2.1 "acme" "beta" r.1.refresh_token
        r.1.session_id 1000 r.2.2)
    = some (.error (.unauthorized "Invalid session or session expired")) := by
  exact rfl

/-- **C3** (code_bug evidence).  After the same login, `logout` with the
issued session id deletes nothing (the session lives under
`session:session:<sid>`, the delete targets `session:<sid>`) and the route
answers 401 "Session expired, maybe already logout"; moreover, on the Redis
state left behind by that delete, `introspect_user` with the same session id
still returns `active=true` — the session was not invalidated. -/
theorem logout_after_login_fails :
    (authenticate demoRepos emptyStore "acme" "u@x.y" "hunter2" 1000 0).toOption.map
      (fun r =>
        ((logout_user r.2.1 (some r.1.session_id)).map (fun _ => ()),
         ((userIntrospect (storeDelete "session" r.2.1 (toString r.1.session_id)).2
            r.1.access_token "acme" (some r.1.session_id) 1000).map
            (fun c => c.active))))
    = some (.error (.http 401 "Session expired, maybe already logout"), .ok true) := by
  exact rfl

/-- **C6** (counterexample).  The claim asserts every user whose status is
`banned` *or `deleted`* is blocked; but `authenticate` only checks
`UserStatus.BANNED`, so the `deleted` user with a correct password obtains a
token pair (no `NotEnabledError` is raised). -/
theorem deleted_user_authenticates :
    deletedUser.status = .deleted
    ∧ exOk (authenticate demoRepos emptyStore "acme" "d@x.y" "hunter2" 1000 0)
      = true := by
  exact ⟨rfl, rfl⟩

/-! ## Lookup lemmas for `issue_token` (shared by the issuance claims) -/

theorem issue_token_mutated (tokType : String) (payload : Dict)
    (expiresIn now : Int) (ctr : Nat) :
    (issue_token tokType payload expiresIn now ctr).2.1
      = dset (dset (dset (dset payload
          "exp" (.num (now + expiresIn)))
          "iat" (.num now))
          "token_type" (.str tokType))
          "jti" (.uuid ctr) := rfl

theorem issue_token_payload_eq (tokType : String) (payload : Dict)
    (expiresIn now : Int) (ctr : Nat) :
    (issue_token tokType payload expiresIn now ctr).1.payload
      = (issue_token tokType payload expiresIn now ctr).2.1 := rfl

theorem issue_get_jti (tokType : String) (payload : Dict)
    (expiresIn now : Int) (ctr : Nat) :
    dget (issue_token tokType payload expiresIn now ctr).2.1 "jti"
      = some (.uuid ctr) := by
  rw [issue_token_mutated]; exact dget_dset_self _ _ _

theorem issue_get_token_type (tokType : String) (payload : Dict)
    (expiresIn now : Int) (ctr : Nat) :
    dget (issue_token tokType payload expiresIn now ctr).2.1 "token_type"
      = some (.str tokType) := by
  rw [issue_token_mutated, dget_dset_ne _ _ _ _ (by decide)]
  exact dget_dset_self _ _ _

theorem issue_get_iat (tokType : String) (payload : Dict)
    (expiresIn now : Int) (ctr : Nat) :
    dget (issue_token tokType payload expiresIn now ctr).2.1 "iat"
      = some (.num now) := by
  rw [issue_token_mutated, dget_dset_ne _ _ _ _ (by decide),
    dget_dset_ne _ _ _ _ (by decide)]
  exact dget_dset_self _ _ _

theorem issue_get_exp (tokType : String) (payload : Dict)
    (expiresIn now : Int) (ctr : Nat) :
    dget (issue_token tokType payload expiresIn now ctr).2.1 "exp"
      = some (.num (now + expiresIn)) := by
  rw [issue_token_mutated, dget_dset_ne _ _ _ _ (by decide),
    dget_dset_ne _ _ _ _ (by decide), dget_dset_ne _ _ _ _ (by decide)]
  exact dget_dset_self _ _ _

theorem issue_get_other (tokType : String) (payload : Dict)
    (expiresIn now : Int) (ctr : Nat) (k : String)
    (h₁ : k ≠ "exp") (h₂ : k ≠ "iat") (h₃ : k ≠ "token_type") (h₄ : k ≠ "jti") :
    dget (issue_token tokType payload expiresIn now ctr).2.1 k = dget payload k := by
  rw [issue_token_mutated, dget_dset_ne _ _ _ _ (Ne.symm h₄),
    dget_dset_ne _ _ _ _ (Ne.symm h₃), dget_dset_ne _ _ _ _ (Ne.symm h₂),
    dget_dset_ne _ _ _ _ (Ne.symm h₁)]

/-- Decoding a token issued at `now` succeeds at any instant `now'` before
its expiry and returns exactly the mutated payload. -/
theorem decode_issue_token (tokType : String) (payload : Dict)
    (expiresIn now now' : Int) (ctr : Nat) (h : now' < now + expiresIn) :
    decode_token (issue_token tokType payload expiresIn now ctr).1 now'
      = .ok (issue_token tokType payload expiresIn now ctr).2.1 := by
  have hexp : dget (issue_token tokType payload expiresIn now ctr).1.payload "exp"
      = some (.num (now + expiresIn)) := by
    rw [issue_token_payload_eq]; exact issue_get_exp _ _ _ _ _
  rw [decode_token, if_neg (fun hne => hne rfl), hexp]
  show (if now + expiresIn ≤ now' then Except.error (Err.invalidToken "Invalid token")
    else Except.ok (issue_token tokType payload expiresIn now ctr).1.payload) = _
  rw [if_neg (by omega), issue_token_payload_eq]

/-- **C8** (confirmed).  `_validate_scopes(A, B, strict_mode=False)` returns
exactly the elements of `A` that occur in `B`, in `A`'s order, and `None`
exactly when no element of `A` occurs in `B` (i.e. `A ∩ B = ∅`); with
`strict_mode=True` it returns `None` whenever some element of `A` is not
permitted by `B`. -/
theorem validate_scopes_spec (A B : List String) :
    validate_scopes A B false
      = (if A.filter (fun a => a ∈ B) = [] then none
         else some (A.filter (fun a => a ∈ B)))
    ∧ (validate_scopes A B false = none ↔ ∀ a ∈ A, a ∉ B)
    ∧ ((∃ a ∈ A, a ∉ B) → validate_scopes A B true = none) := by
  have heq : validate_scopes A B false
      = (if A.filter (fun a => a ∈ B) = [] then none
         else some (A.filter (fun a => a ∈ B))) := by
    simp [validate_scopes]
  refine ⟨heq, ?_, ?_⟩
  · rw [heq]
    constructor
    · intro h
      by_cases hnil : A.filter (fun a => decide (a ∈ B)) = []
      · rw [List.filter_eq_nil_iff] at hnil
        intro a ha
        simpa using hnil a ha
      · rw [if_neg hnil] at h
        exact absurd h (by simp)
    · intro h
      have hnil : A.filter (fun a => decide (a ∈ B)) = [] := by
        rw [List.filter_eq_nil_iff]
        intro a ha
        simpa using h a ha
      rw [if_pos hnil]
  · rintro ⟨a, ha, hb⟩
    have hmem : a ∉ A.filter (fun s => decide (s ∈ B)) := by
      simp only [List.mem_filter]
      exact fun hc => hb (by simpa using hc.2)
    have hany : A.any (fun s => decide (s ∉ A.filter (fun s => decide (s ∈ B)))) = true :=
      List.any_eq_true.mpr ⟨a, ha, decide_eq_true hmem⟩
    simp only [validate_scopes, Bool.true_and]
    rw [if_pos hany]

/-- **C8** witness: `validate_scopes_spec` instantiated at
`A = ["api:read", "api:write"]`, `B = ["api:read"]` settles the strict mode
to `None` (the element `"api:write"` is not permitted). -/
theorem validate_scopes_spec_witness :
    validate_scopes ["api:read", "api:write"] ["api:read"] true = none :=
  (validate_scopes_spec ["api:read", "api:write"] ["api:read"]).2.2
    ⟨"api:write", by decide, by decide⟩

/-- **C9** (confirmed).  For any token pair from one `_generate_token_pair`
call, both tokens decode successfully at issuance time, carry identical
`sub`, `realm`, `roles`, `email` (indeed identical everything except the
listed claims), and differ exactly in `token_type` (`access` vs `refresh`),
`exp` (15 minutes vs 7 days after issuance), and `jti` (two consecutive
fresh UUIDs). -/
theorem token_pair_claims_agree (payload : Dict) (sid : Nat) (now : Int) (ctr : Nat) :
    decode_token (generate_token_pair payload sid now ctr).1.access_token now
      = .ok (generate_token_pair payload sid now ctr).1.access_token.payload
    ∧ decode_token (generate_token_pair payload sid now ctr).1.refresh_token now
      = .ok (generate_token_pair payload sid now ctr).1.refresh_token.payload
    ∧ (∀ k, k ∈ ["sub", "realm", "roles", "email"] →
        dget (generate_token_pair payload sid now ctr).1.access_token.payload k
          = dget (generate_token_pair payload sid now ctr).1.refresh_token.payload k)
    ∧ dget (generate_token_pair payload sid now ctr).1.access_token.payload "token_type"
      = some (.str "access")
    ∧ dget (generate_token_pair payload sid now ctr).1.refresh_token.payload "token_type"
      = some (.str "refresh")
    ∧ dget (generate_token_pair payload sid now ctr).1.access_token.payload "exp"
      = some (.num (now + USER_ACCESS_TOKEN_EXPIRE_IN))
    ∧ dget (generate_token_pair payload sid now ctr).1.refresh_token.payload "exp"
      = some (.num (now + USER_REFRESH_TOKEN_EXPIRE_IN))
    ∧ dget (generate_token_pair payload sid now ctr).1.access_token.payload "jti"
      ≠ dget (generate_token_pair payload sid now ctr).1.refresh_token.payload "jti"
    ∧ (∀ k, k ≠ "token_type" → k ≠ "exp" → k ≠ "jti" →
        dget (generate_token_pair payload sid now ctr).1.access_token.payload k
          = dget (generate_token_pair payload sid now ctr).1.refresh_token.payload k) := by
  have haP : (generate_token_pair payload sid now ctr).1.access_token.payload
      = (issue_token "access" payload USER_ACCESS_TOKEN_EXPIRE_IN now ctr).2.1 := rfl
  have hrP : (generate_token_pair payload sid now ctr).1.refresh_token.payload
      = (issue_token "refresh"
          (issue_token "access" payload USER_ACCESS_TOKEN_EXPIRE_IN now ctr).2.1
          USER_REFRESH_TOKEN_EXPIRE_IN now (ctr + 1)).2.1 := rfl
  have hgen : ∀ k, k ≠ "token_type" → k ≠ "exp" → k ≠ "jti" →
      dget (generate_token_pair payload sid now ctr).1.access_token.payload k
        = dget (generate_token_pair payload sid now ctr).1.refresh_token.payload k := by
    intro k h₁ h₂ h₃
    by_cases hk : k = "iat"
    · subst hk
      rw [haP, hrP, issue_get_iat, issue_get_iat]
    · rw [haP, hrP, issue_get_other "refresh" _ _ _ _ _ h₂ hk h₁ h₃]
  refine ⟨?_, ?_, ?_, ?_, ?_, ?_, ?_, ?_, hgen⟩
  · exact decode_issue_token "access" payload USER_ACCESS_TOKEN_EXPIRE_IN now now ctr
      (by norm_num [USER_ACCESS_TOKEN_EXPIRE_IN])
  · exact decode_issue_token "refresh"
      (issue_token "access" payload USER_ACCESS_TOKEN_EXPIRE_IN now ctr).2.1
      USER_REFRESH_TOKEN_EXPIRE_IN now now (ctr + 1)
      (by norm_num [USER_REFRESH_TOKEN_EXPIRE_IN])
  · intro k hk
    simp only [List.mem_cons, List.not_mem_nil, or_false] at hk
    rcases hk with h | h | h | h <;> subst h <;>
      exact hgen _ (by decide) (by decide) (by decide)
  · rw [haP]; exact issue_get_token_type _ _ _ _ _
  · rw [hrP]; exact issue_get_token_type _ _ _ _ _
  · rw [haP]; exact issue_get_exp _ _ _ _ _
  · rw [hrP]; exact issue_get_exp _ _ _ _ _
  · rw [haP, hrP, issue_get_jti, issue_get_jti]
    simp

/-- **C9** witness: the shared-claim conjunct of `token_pair_claims_agree`
instantiated at a concrete payload (`sub` agrees across the pair). -/
theorem token_pair_claims_agree_witness :
    dget (generate_token_pair [("sub", .str "s")] 1 1000 0).1.access_token.payload "sub"
      = dget (generate_token_pair [("sub", .str "s")] 1 1000 0).1.refresh_token.payload "sub" :=
  (token_pair_claims_agree [("sub", .str "s")] 1 1000 0).2.2.1 "sub" (by simp)

/-- **C10** (confirmed).  Decoding an issued token before its expiry returns
exactly the caller's payload extended with `exp = now + expires_in`,
`iat = now`, the given `token_type`, and the freshly drawn `jti`; the four
timing/identity claims are overwritten whatever the caller put there, every
other entry is untouched, and the token carries (and `issue_token` hands
back) the very dict the caller passed in, mutated in place. -/
theorem issue_decode_round_trip (tokType : String) (payload : Dict)
    (expiresIn now now' : Int) (ctr : Nat)
    (_hpos : 0 < expiresIn) (hbefore : now' < now + expiresIn) :
    (issue_token tokType payload expiresIn now ctr).1.payload
      = (issue_token tokType payload expiresIn now ctr).2.1
    ∧ decode_token (issue_token tokType payload expiresIn now ctr).1 now'
      = .ok (issue_token tokType payload expiresIn now ctr).2.1
    ∧ (issue_token tokType payload expiresIn now ctr).2.1
      = dset (dset (dset (dset payload "exp" (.num (now + expiresIn)))
          "iat" (.num now)) "token_type" (.str tokType)) "jti" (.uuid ctr)
    ∧ dget (issue_token tokType payload expiresIn now ctr).2.1 "exp"
      = some (.num (now + expiresIn))
    ∧ dget (issue_token tokType payload expiresIn now ctr).2.1 "iat"
      = some (.num now)
    ∧ dget (issue_token tokType payload expiresIn now ctr).2.1 "token_type"
      = some (.str tokType)
    ∧ dget (issue_token tokType payload expiresIn now ctr).2.1 "jti"
      = some (.uuid ctr)
    ∧ (issue_token tokType payload expiresIn now ctr).2.2 = ctr + 1
    ∧ ∀ k, k ≠ "exp" → k ≠ "iat" → k ≠ "token_type" → k ≠ "jti" →
        dget (issue_token tokType payload expiresIn now ctr).2.1 k = dget payload k :=
  ⟨rfl,
   decode_issue_token tokType payload expiresIn now now' ctr hbefore,
   rfl,
   issue_get_exp _ _ _ _ _,
   issue_get_iat _ _ _ _ _,
   issue_get_token_type _ _ _ _ _,
   issue_get_jti _ _ _ _ _,
   rfl,
   fun _ h₁ h₂ h₃ h₄ => issue_get_other _ _ _ _ _ _ h₁ h₂ h₃ h₄⟩

/-- **C10** witness: `issue_decode_round_trip` at a payload that already
carries an `exp` entry, with `expires_in = 60`, issued at 100 and decoded at
120 (before the expiry instant 160). -/
theorem issue_decode_round_trip_witness :
    (0 : Int) < 60 ∧ (120 : Int) < 100 + 60
    ∧ decode_token (issue_token "access" [("sub", .str "s"), ("exp", .num 1)] 60 100 5).1 120
      = .ok (issue_token "access" [("sub", .str "s"), ("exp", .num 1)] 60 100 5).2.1
    ∧ dget (issue_token "access" [("sub", .str "s"), ("exp", .num 1)] 60 100 5).2.1 "exp"
      = some (.num 160) := by
  have h := issue_decode_round_trip "access" [("sub", .str "s"), ("exp", .num 1)]
    60 100 120 5 (by norm_num) (by norm_num)
  exact ⟨by norm_num, by norm_num, h.2.1, by simpa using h.2.2.2.1⟩

/-- **C6** (amended).  For every user whose status is `banned`,
`authenticate` raises `NotEnabledError("User is banned")` whatever password
is supplied (the status check precedes password verification), and
`switch_realm` raises `PermissionDeniedError("User is banned")` for every
target realm, provided the call reaches the status check: the session is
present under both the once- and twice-prefixed keys the code consults, the
refresh token is signed, unexpired, bound to the current realm and carries
the user id, and the target realm exists and is enabled.  (The original
claim also covered `deleted` users; see the counterexample.) -/
theorem banned_user_blocked
    (repos : Repos) (store : StoreState Session)
    (realm email password target : String) (now e : Int) (ctr sid uid : Nat)
    (u u₂ : User) (tok : Jwt) (sess : Session)
    (hu : repos.getByEmail email = some u) (hb : u.status = .banned)
    (hr : realm ≠ "") (hne : realm ≠ target)
    (hsess : storeGet "session" store (toString sid) = some sess)
    (hsess₂ : storeExists "session" store
      (build_key "session" (sidString (some sid))) = true)
    (hkey : tok.key = serviceKey)
    (hexp : dget tok.payload "exp" = some (.num e)) (hfut : now < e)
    (hrealm : dget tok.payload "realm" = some (.str realm))
    (hsub : dget tok.payload "sub" = some (.uuid uid))
    (hcan : can_switch_realm repos target = true)
    (hread : repos.readUser uid = some u₂) (hb₂ : u₂.status = .banned) :
    authenticate repos store realm email password now ctr
      = .error (.notEnabled "User is banned")
    ∧ switch_realm repos store realm target tok sid now ctr
      = .error (.permissionDenied "User is banned") := by
  constructor
  · simp [authenticate, hu, hb]
  · have hle : ¬ (e ≤ now) := by omega
    have hlt : ¬ (e < now) := by omega
    have hdec : decode_token tok now = .ok tok.payload := by
      simp [decode_token, hkey, hexp, hle]
    have hintro : userIntrospect store tok realm (some sid) now
        = .ok ⟨true, none, tok.payload⟩ := by
      simp [userIntrospect, hr, hsess₂, hdec, hrealm, expiredFlag, hexp, hlt]
    simp [switch_realm, hne, hsess, hintro, hcan, hsub, hread, hb₂]

/-- Redis holding banned user 5's session 7 under both key shapes the code
consults. -/
def bannedStore : StoreState Session :=
  ⟨fun k =>
    if k = "session:7" then some ⟨7, 5, 999999⟩
    else if k = "session:session:7" then some ⟨7, 5, 999999⟩
    else none,
   fun _ => none⟩

/-- A signed, unexpired refresh token for banned user 5 in realm `acme`. -/
def bannedToken : Jwt :=
  ⟨[("iss", .str ISSUER), ("sub", .uuid 5), ("email", .str "b@x.y"),
    ("status", .str "banned"), ("realm", .str "acme"), ("roles", .str "user"),
    ("exp", .num 2000), ("iat", .num 100), ("token_type", .str "refresh"),
    ("jti", .uuid 11)], serviceKey⟩

/-- **C6** witness: `banned_user_blocked` at the banned demo user, realm
`acme`, target `beta`, session 7, `now = 1000`. -/
theorem banned_user_blocked_witness :
    authenticate demoRepos bannedStore "acme" "b@x.y" "hunter2" 1000 0
      = .error (.notEnabled "User is banned")
    ∧ switch_realm demoRepos bannedStore "acme" "beta" bannedToken 7 1000 0
      = .error (.permissionDenied "User is banned") :=
  banned_user_blocked demoRepos bannedStore "acme" "b@x.y" "hunter2" "beta"
    1000 2000 0 7 5 bannedUser bannedUser bannedToken ⟨7, 5, 999999⟩
    rfl rfl (by decide) (by decide) rfl rfl rfl rfl (by decide) rfl rfl rfl rfl rfl

/-- **C7** (confirmed).  `generate_url` stores the PKCE `Codes` keyed by the
fresh `state`; the first callback carrying that `state` pops the entry (the
resulting codes-store no longer holds it) and proceeds to the provider token
exchange with the stored `code_verifier`; any callback presented against a
store without the entry — in particular every subsequent callback with the
same `state` — raises `BadRequestHTTPError`.  Both the VK and the Yandex
adapters share this behaviour. -/
theorem pkce_state_single_use (store : StoreState Codes) (ctr : Nat)
    (code₁ dev₁ code₂ dev₂ codeY₁ codeY₂ : String) :
    vk_handle_callback (generate_url store ctr).2.1 ⟨code₁, ctr, dev₁⟩
      = .ok (VKCallback.toDict ⟨code₁, ctr, dev₁⟩ (Codes.generate ctr).1.code_verifier,
             (storeDelete "codes" (generate_url store ctr).2.1 (toString ctr)).2)
    ∧ (storeDelete "codes" (generate_url store ctr).2.1 (toString ctr)).2.data
        (build_key "codes" (toString ctr)) = none
    ∧ vk_handle_callback
        (storeDelete "codes" (generate_url store ctr).2.1 (toString ctr)).2
        ⟨code₂, ctr, dev₂⟩ = .error .badRequest
    ∧ yandex_handle_callback (generate_url store ctr).2.1 ⟨codeY₁, ctr⟩
      = .ok (YandexCallback.toDict ⟨codeY₁, ctr⟩ (Codes.generate ctr).1.code_verifier,
             (storeDelete "codes" (generate_url store ctr).2.1 (toString ctr)).2)
    ∧ yandex_handle_callback
        (storeDelete "codes" (generate_url store ctr).2.1 (toString ctr)).2
        ⟨codeY₂, ctr⟩ = .error .badRequest
    ∧ (∀ s' : StoreState Codes,
        s'.data (build_key "codes" (toString ctr)) = none →
        vk_handle_callback s' ⟨code₂, ctr, dev₂⟩ = .error .badRequest
        ∧ yandex_handle_callback s' ⟨codeY₂, ctr⟩ = .error .badRequest) := by
  have hget : storeGet "codes" (generate_url store ctr).2.1 (toString ctr)
      = some (Codes.generate ctr).1 := by
    simp [generate_url, storeGet, storeAdd, Codes.generate]
  have hdel : (storeDelete "codes" (generate_url store ctr).2.1 (toString ctr)).2.data
      (build_key "codes" (toString ctr)) = none := by
    simp [storeDelete]
  have habsent : ∀ s' : StoreState Codes,
      s'.data (build_key "codes" (toString ctr)) = none →
      vk_handle_callback s' ⟨code₂, ctr, dev₂⟩ = .error .badRequest
      ∧ yandex_handle_callback s' ⟨codeY₂, ctr⟩ = .error .badRequest := by
    intro s' h
    constructor
    · simp [vk_handle_callback, storePop, storeGet, h]
    · simp [yandex_handle_callback, storePop, storeGet, h]
  refine ⟨?_, hdel, (habsent _ hdel).1, ?_, (habsent _ hdel).2, habsent⟩
  · simp [vk_handle_callback, storePop, hget]
  · simp [yandex_handle_callback, storePop, hget]

/-- **C7** witness: the single-use property at the empty codes store,
`state = 0`, with concrete codes and device ids. -/
theorem pkce_state_single_use_witness :
    vk_handle_callback
      (storeDelete "codes" (generate_url (emptyStore : StoreState Codes) 0).2.1
        (toString 0)).2
      ⟨"c2", 0, "d2"⟩ = .error .badRequest :=
  (pkce_state_single_use emptyStore 0 "c1" "d1" "c2" "d2" "y1" "y2").2.2.1

end SSO
